import Mathlib

/-!
Verification development for the Decon-Optimizer (PICALO) repository.

We give a shallow embedding of the parts of the code base that the
specification talks about:

* `picalo.py` (the `__main__` block): retrieval of the command-line options
  and construction of the driver (`Main`) parameters;
* `simulate_expression.py` (`main.start`, `main.corrcoef`): the simulation
  harness — input-mismatch check, genotype-beta generation, individual
  selection, the experiment loop with model-matrix/beta/expression
  construction, starting-vector generation, and the Pearson-correlation
  statistic;
* `dev/general/postprocess_scripts/model_cell_fraction_by_pics.py`
  (`main.start`): sample selection and model inputs of the cell-fraction
  post-processing.

Floating-point values are modelled as rationals (`ℚ`); external numeric
routines that the scripts call (NumPy `sqrt`, SciPy `betainc`, scikit-learn
`PCA.fit`, NumPy `random.choice`, Python `float` parsing, SciPy `pearsonr`,
statsmodels `OLS`) are taken as function parameters, with their documented
behaviour as explicit hypotheses where a claim depends on it.  The NumPy
global random generator is modelled as a stream of standard-normal variates
together with a position; every `np.random.normal` call consumes a block of
the stream.
-/

namespace DeconOptimizer

/-- A real vector, indexed by `ℕ`. -/
def Vec : Type := ℕ → ℚ

/-- A real matrix, indexed by `ℕ × ℕ` (row, column). -/
def Mat : Type := ℕ → ℕ → ℚ

/-- The NumPy global random generator, modelled as an infinite stream of
standard-normal variates together with the position of the next unread
draw. -/
structure RNG where
  stream : ℕ → ℚ
  pos : ℕ

/-- `np.random.normal(0, 1, size=(n,))`: read `n` fresh draws. -/
def RNG.draw (r : RNG) (n : ℕ) : Vec × RNG :=
  (fun i => r.stream (r.pos + i), ⟨r.stream, r.pos + n⟩)

/-- `np.random.normal(0, 1, size=(rows, cols))`: read `rows * cols` fresh
draws, laid out row-major as NumPy does. -/
def RNG.drawMat (r : RNG) (rows cols : ℕ) : Mat × RNG :=
  (fun i j => r.stream (r.pos + (i * cols + j)), ⟨r.stream, r.pos + rows * cols⟩)

/-! ## `picalo.py` — command-line wiring of the driver

The `__main__` block of `picalo.py` retrieves every recognized option from
the `CommandLineArguments` collaborator, adjusts `MAX_ITER` when it does not
exceed `MIN_ITER`, and passes everything to the `Main` constructor. -/

/-- The values retrieved from the command line in `picalo.py`
(`CLA.get_argument(...)` for each recognized option). -/
structure CLIArgs where
  genotype_na : Int
  min_dataset_size : Int
  eqtl_alpha : ℚ
  ieqtl_alpha : ℚ
  call_rate : ℚ
  hardy_weinberg_pvalue : ℚ
  minor_allele_frequency : ℚ
  min_group_size : Int
  n_components : Int
  min_iter : Int
  max_iter : Int
  tol : ℚ
  force_continue : Bool
  verbose : Bool

/-- The keyword arguments of the `Main(...)` constructor call in
`picalo.py`. -/
structure MainParams where
  genotype_na : Int
  min_dataset_size : Int
  eqtl_alpha : ℚ
  ieqtl_alpha : ℚ
  call_rate : ℚ
  hw_pval : ℚ
  maf : ℚ
  mgs : Int
  n_components : Int
  min_iter : Int
  max_iter : Int
  tol : ℚ
  force_continue : Bool
  verbose : Bool

/-- `picalo.py` lines 79–80: `if MAX_ITER <= MIN_ITER: MAX_ITER = MIN_ITER + 1`. -/
def adjustMaxIter (minIter maxIter : Int) : Int :=
  if maxIter ≤ minIter then minIter + 1 else maxIter

/-- The `__main__` block of `picalo.py`: build the `Main` constructor
arguments from the retrieved command-line values. -/
def buildMain (a : CLIArgs) : MainParams :=
  { genotype_na := a.genotype_na
  , min_dataset_size := a.min_dataset_size
  , eqtl_alpha := a.eqtl_alpha
  , ieqtl_alpha := a.ieqtl_alpha
  , call_rate := a.call_rate
  , hw_pval := a.hardy_weinberg_pvalue
  , maf := a.minor_allele_frequency
  , mgs := a.min_group_size
  , n_components := a.n_components
  , min_iter := a.min_iter
  , max_iter := adjustMaxIter a.min_iter a.max_iter
  , tol := a.tol
  , force_continue := a.force_continue
  , verbose := a.verbose }

/-- A fixed set of command-line values with `min_iter = 5`, `max_iter = 3`,
used to exhibit the `MAX_ITER` adjustment. -/
def cliArgsMax3Min5 : CLIArgs :=
  { genotype_na := -1
  , min_dataset_size := 30
  , eqtl_alpha := 1/20
  , ieqtl_alpha := 1/20
  , call_rate := 95/100
  , hardy_weinberg_pvalue := 1/10000
  , minor_allele_frequency := 1/100
  , min_group_size := 2
  , n_components := 10
  , min_iter := 5
  , max_iter := 3
  , tol := 1/1000
  , force_continue := false
  , verbose := false }

/-! ## `simulate_expression.py` — the simulation harness

`main.start` loads the eQTL table and genotype matrix, aborts on a
SNP-name/row-index mismatch, generates the intercept and genotype betas,
selects individuals, generates the covariate matrix, and then runs the
experiment loop. -/

/-- Control flow of a script run: either the process terminated — through
the Python builtin `exit()` or through an uncaught exception — recording
the exit status and whether a diagnostic (error message or traceback) was
printed, or it continued with a value.  Bare `exit()` gives status `0`; an
uncaught exception makes the interpreter print a traceback and exit with
status `1`. -/
inductive RunFlow (α : Type) where
  | exited (code : ℕ) (diagnostic : Bool) : RunFlow α
  | ok (a : α) : RunFlow α
deriving DecidableEq

/-- `simulate_expression.py` lines 312–314:
`if eqtl_df["SNPName"].tolist() != geno_df.index.tolist(): log.error(...); exit()`.
Python's bare `exit()` terminates the process with exit status `0`. -/
def checkEqtlGenotypeMatch (snpNames genoIndex : List String) : RunFlow Unit :=
  if snpNames ≠ genoIndex then .exited 0 true else .ok ()

/-- pandas `s.str.split(sep, n=1, expand=True)[0]`: the part of the string
before the first occurrence of the separator (the whole string when the
separator does not occur). -/
def firstField (sep s : String) : String :=
  (s.splitOn sep).headD s

/-- `simulate_expression.py` line 338: the allele before the `/` in the
alleles table's `Alleles` column. -/
def allelesAssessedDerived (allelesCol : ℕ → String) : ℕ → String :=
  fun i => firstField "/" (allelesCol i)

/-- `simulate_expression.py` line 341: `+1` when the eQTL table's
`AlleleAssessed` equals the allele derived from the alleles table, `-1`
otherwise. -/
def flipColumn (refAA altAA : ℕ → String) : ℕ → ℚ :=
  fun i => if refAA i = altAA i then 1 else -1

/-- `simulate_expression.py` line 342: the float parsed from the first
space-separated token of the eQTL table's `Meta-Beta (SE)` column
(`parseFloat` models Python's `float`/pandas `astype(float)`). -/
def metaBetaParsed (parseFloat : String → ℚ) (metaBeta : ℕ → String) : ℕ → ℚ :=
  fun i => parseFloat (firstField " " (metaBeta i))

/-- `simulate_expression.py` lines 333–343: the real genotype beta, the
parsed meta beta multiplied by the allele flip. -/
def realGenoBeta (parseFloat : String → ℚ) (metaBeta eqtlAA allelesCol : ℕ → String)
    (i : ℕ) : ℚ :=
  metaBetaParsed parseFloat metaBeta i *
    flipColumn eqtlAA (allelesAssessedDerived allelesCol) i

/-- `simulate_expression.py` lines 331–344: the genotype betas are first
drawn from the normal stream (line 332) and then, when
`use_real_genotype_beta` is set, overwritten with the real betas computed
from the eQTL table and the alleles matrix. -/
def genoBetaStep (useReal : Bool) (parseFloat : String → ℚ)
    (metaBeta eqtlAA allelesCol : ℕ → String) (nEqtls : ℕ) (rng : RNG) :
    Vec × RNG :=
  let (randBeta, rng1) := rng.draw nEqtls
  if useReal then (fun i => realGenoBeta parseFloat metaBeta eqtlAA allelesCol i, rng1)
  else (randBeta, rng1)

/-- `simulate_expression.py` lines 347–355: build the individuals mask.  A
request for more individuals than available prints an error and calls
`exit()`; otherwise `np.random.choice(n, size=n - nSel, replace=False)`
(modelled by the `choice` parameter, returning the indicator of the chosen
index set together with the advanced generator) zeroes out the chosen
positions of the all-ones mask. -/
def selectIndividuals (choice : RNG → ℕ → ℕ → (ℕ → Bool) × RNG)
    (rng : RNG) (nSel nTotal : ℕ) : RunFlow ((ℕ → Bool) × RNG) :=
  if nSel ≠ nTotal then
    if nSel > nTotal then .exited 0 true
    else
      let (chosen, rng1) := choice rng nTotal (nTotal - nSel)
      .ok (fun i => !chosen i, rng1)
  else .ok (fun _ => true, rng)

/-- The simulator's configuration, from `main.__init__` of
`simulate_expression.py`. -/
structure SimConfig where
  useRealInterceptBeta : Bool
  useRealGenotypeBeta : Bool
  requestedIndividuals : Option ℕ
  resampleIndividuals : Bool
  nExperiments : ℕ
  nKnownCovariates : ℕ
  nHiddenCovariates : ℕ
  nStartingVectors : ℕ
  excludeCovariateInteractions : Bool
  resampleCovariates : Bool

/-- `self.n_covariates = self.n_known_covariates + self.n_hidden_covariates`. -/
def SimConfig.nCovariates (c : SimConfig) : ℕ :=
  c.nKnownCovariates + c.nHiddenCovariates

/-- `self.n_interaction_covariates`: equals `n_covariates`, or `0` when
covariate interactions are excluded. -/
def SimConfig.nInteractionCovariates (c : SimConfig) : ℕ :=
  if c.excludeCovariateInteractions then 0 else c.nCovariates

/-- `self.n_terms = 2 + self.n_covariates + self.n_interaction_covariates + 1`. -/
def SimConfig.nTerms (c : SimConfig) : ℕ :=
  2 + c.nCovariates + c.nInteractionCovariates + 1

/-- `simulate_expression.py` lines 390–416: entry `(i, j, k)` of the model
matrix `model_m` — intercept plane, genotype plane, covariate planes,
interaction planes (covariate times genotype), noise plane. -/
def modelEntry (c : SimConfig) (geno cov noise : Mat) (i j k : ℕ) : ℚ :=
  if k = 0 then 1
  else if k = 1 then geno i j
  else if k < c.nCovariates + 2 then cov j (k - 2)
  else if k < c.nTerms - 1 then cov j (k - (c.nCovariates + 2)) * geno i j
  else noise i j

/-- `simulate_expression.py` lines 425–433: entry `(i, k)` of the beta
matrix `beta_m` — intercept beta, genotype beta, covariate betas,
interaction betas, and the noise coefficient fixed to `1`. -/
def betaEntry (c : SimConfig) (interceptBeta genoBeta : Vec) (covBeta interBeta : Mat)
    (i k : ℕ) : ℚ :=
  if k = 0 then interceptBeta i
  else if k = 1 then genoBeta i
  else if k < c.nCovariates + 2 then covBeta i (k - 2)
  else if k < c.nTerms - 1 then interBeta i (k - (c.nCovariates + 2))
  else 1

/-- `simulate_expression.py` line 437:
`expr_m = np.einsum('ijk,ik->ij', model_m, beta_m)` — the per-eQTL inner
product of the model-matrix row and the beta vector. -/
def exprEntry (c : SimConfig) (geno cov noise : Mat) (interceptBeta genoBeta : Vec)
    (covBeta interBeta : Mat) (i j : ℕ) : ℚ :=
  ∑ k ∈ Finset.range c.nTerms,
    modelEntry c geno cov noise i j k * betaEntry c interceptBeta genoBeta covBeta interBeta i k

/-! ### The Pearson-correlation statistic (`main.corrcoef`) -/

/-- `np.mean(m, axis=0)` over the first `n` rows: the mean of column `j`. -/
def colMean (n : ℕ) (m : Mat) (j : ℕ) : ℚ :=
  (∑ i ∈ Finset.range n, m i j) / n

/-- `m - np.mean(m, axis=0)`: the column-deviation matrix. -/
def colDev (n : ℕ) (m : Mat) : Mat :=
  fun i j => m i j - colMean n m j

/-- `np.sum(dev * dev, axis=0)`: the residual sum of squares of column `j`. -/
def colRss (n : ℕ) (m : Mat) (j : ℕ) : ℚ :=
  ∑ i ∈ Finset.range n, colDev n m i j * colDev n m i j

/-- `main.corrcoef` of `simulate_expression.py` (lines 518–542), coefficient
part: `r[i, j] = sum(dev1[:, i] * dev2[:, j]) / sqrt(rss1[i] * rss2[j])`.
`sqrtQ` models `np.sqrt`. -/
def corrcoefR (sqrtQ : ℚ → ℚ) (n : ℕ) (m1 m2 : Mat) : Mat :=
  fun i j =>
    (∑ k ∈ Finset.range n, colDev n m1 k i * colDev n m2 k j) /
      sqrtQ (colRss n m1 i * colRss n m2 j)

/-- `main.corrcoef`, p-value part: `df = n - 2`,
`ts = r * r * (df / (1 - r * r))`, `p = betainc(0.5 * df, 0.5, df / (df + ts))`.
`bi` models `scipy.special.betainc`. -/
def corrcoefP (bi : ℚ → ℚ → ℚ → ℚ) (sqrtQ : ℚ → ℚ) (n : ℕ) (m1 m2 : Mat) : Mat :=
  fun i j =>
    let r := corrcoefR sqrtQ n m1 m2 i j
    let df : ℚ := (n : ℚ) - 2
    let ts := r * r * (df / (1 - r * r))
    bi (df / 2) (1 / 2) (df / (df + ts))

/-- `main.corrcoef`: the pair of the coefficient matrix and the p-value
matrix. -/
def corrcoef (bi : ℚ → ℚ → ℚ → ℚ) (sqrtQ : ℚ → ℚ) (n : ℕ) (m1 m2 : Mat) :
    Mat × Mat :=
  (corrcoefR sqrtQ n m1 m2, corrcoefP bi sqrtQ n m1 m2)

/-- A call of `main.corrcoef` in the RNG-threaded view of `main.start`: the
body of `corrcoef` contains no `np.random` call, so the generator passes
through untouched. -/
def corrcoefCall (bi : ℚ → ℚ → ℚ → ℚ) (sqrtQ : ℚ → ℚ) (n : ℕ) (m1 m2 : Mat)
    (rng : RNG) : (Mat × Mat) × RNG :=
  (corrcoef bi sqrtQ n m1 m2, rng)

/-- `np.transpose`. -/
def transposeM (m : Mat) : Mat := fun i j => m j i

/-- `cov_m[:, self.n_known_covariates:self.n_covariates]`: the hidden
columns of the covariate matrix (`simulate_expression.py` lines 452 and
469). -/
def hiddenCovSlice (c : SimConfig) (cm : Mat) : Mat :=
  fun i j => cm i (c.nKnownCovariates + j)

/-! ### The experiment loop -/

/-- `np.std(m, axis=0)` (population standard deviation) of column `j` over
the first `n` rows; `sqrtQ` models `np.sqrt`. -/
def colStd (sqrtQ : ℚ → ℚ) (n : ℕ) (m : Mat) (j : ℕ) : ℚ :=
  sqrtQ ((∑ i ∈ Finset.range n, colDev n m i j * colDev n m i j) / n)

/-- `simulate_expression.py` line 442:
`zscores = (expr_m - np.mean(expr_m, axis=0)) / np.std(expr_m, axis=0)`. -/
def zscoreM (sqrtQ : ℚ → ℚ) (n : ℕ) (m : Mat) : Mat :=
  fun i j => colDev n m i j / colStd sqrtQ n m j

/-- `simulate_expression.py` line 446: the row labels `PC1`, `PC2`, … of the
expression principal components. -/
def pcIndexNames (rows : ℕ) : List String :=
  (List.range rows).map (fun i => "PC" ++ toString (i + 1))

/-- `simulate_expression.py` lines 474/501: the row labels `Random1`,
`Random2`, … of the random starting vectors. -/
def randomIndexNames (rows : ℕ) : List String :=
  (List.range rows).map (fun i => "Random" ++ toString (i + 1))

/-- The indices below `n` where a boolean mask is set, in order —
NumPy boolean-mask selection of positions. -/
def trueIndices (mask : ℕ → Bool) (n : ℕ) : List ℕ :=
  (List.range n).filter (fun i => mask i)

/-- `geno_df.iloc[:, individuals_mask]`: keep, in order, the columns whose
mask entry is set (`n` is the total number of columns). -/
def maskedColumns (m : Mat) (mask : ℕ → Bool) (n : ℕ) : Mat :=
  fun i j => m i ((trueIndices mask n).getD j 0)

/-- `geno_df.columns[individuals_mask]`: the selected sample names. -/
def selectedNames (names : List String) (mask : ℕ → Bool) : List String :=
  (trueIndices mask names.length).map (fun i => names.getD i "")

/-- The loop-carried state of the experiment loop in `main.start`: the
random generator, the loaded genotype dataframe `geno_df`, the covariate
matrix `cov_m` (absent when there are no covariates), and the individuals
mask. -/
structure SimState where
  rng : RNG
  genoDf : Mat
  covM : Option Mat
  mask : ℕ → Bool

/-- The per-experiment data produced inside the loop of `main.start`:
the selected sample names, the model matrix, the beta matrix, the simulated
expression matrix, the expression-PC starting vectors (row count, row
labels, column labels, entries), the hidden-covariate/PC correlation output
(absent when no hidden covariates are requested), the random starting
vectors (row count, row labels, column labels, entries), and the
hidden-covariate/random-vector correlation output. -/
structure ExpOutput where
  sampleNames : List String
  modelM : ℕ → ℕ → ℕ → ℚ
  betaM : Mat
  exprM : Mat
  pcsRows : ℕ
  pcsIndex : List String
  pcsColumns : List String
  pcsM : Mat
  hiddenCorr : Option (Mat × Mat)
  randomRows : ℕ
  randomIndex : List String
  randomColumns : List String
  randomM : Mat
  randomCorr : Mat × Mat

/-- `simulate_expression.py` lines 381–386: resample the individuals mask
when the flag is set and a strict subset of individuals is requested. -/
def resampleIndividualsStep (c : SimConfig) (nIndTotal nIndSel : ℕ)
    (choice : RNG → ℕ → ℕ → (ℕ → Bool) × RNG)
    (mask : ℕ → Bool) (rng : RNG) : (ℕ → Bool) × RNG :=
  if nIndSel ≠ nIndTotal ∧ c.resampleIndividuals then
    let s := choice rng nIndTotal (nIndTotal - nIndSel)
    (fun i => !s.1 i, s.2)
  else (mask, rng)

/-- `simulate_expression.py` lines 399–404: resample the covariate matrix
when the flag is set (fresh normal draws), otherwise keep the loop-carried
one. -/
def resampleCovariatesStep (c : SimConfig) (nIndSel : ℕ) (covM : Option Mat)
    (rng : RNG) : Option Mat × RNG :=
  if 0 < c.nCovariates ∧ c.resampleCovariates then
    let s := rng.drawMat nIndSel c.nCovariates
    (some s.1, s.2)
  else (covM, rng)

/-- One iteration of the experiment loop of `main.start`
(`simulate_expression.py` lines 374–502).  `choice` models
`np.random.choice(·, ·, replace=False)` (indicator of the chosen indices,
advanced generator); `pcaFit` models `sklearn.decomposition.PCA(k).fit`
applied to a matrix with the given numbers of rows and features, returning
the row count of `pca.components_` together with its entries; `bi` models
`scipy.special.betainc` inside `corrcoef`.  Both correlation blocks
subscript `cov_m`: the PC block (lines 450–464) only under its
`n_hidden_covariates > 0` guard, the random-vector block (lines 468–471)
unconditionally — when `cov_m` is `None` that subscript raises an uncaught
`TypeError`, which aborts the whole run with a traceback and exit
status 1. -/
def experimentStep (c : SimConfig) (nEqtls nIndTotal nIndSel : ℕ)
    (choice : RNG → ℕ → ℕ → (ℕ → Bool) × RNG)
    (pcaFit : ℕ → ℕ → ℕ → Mat → ℕ × Mat)
    (sqrtQ : ℚ → ℚ)
    (bi : ℚ → ℚ → ℚ → ℚ)
    (genoColumns : List String)
    (interceptBeta genoBeta : Vec)
    (st : SimState) : RunFlow (ExpOutput × SimState) :=
  -- Resample individuals if need be (line 381–386).
  let s1 := resampleIndividualsStep c nIndTotal nIndSel choice st.mask st.rng
  let mask1 := s1.1
  -- Fill in the real genotype data from a copy of the masked slice (396–397).
  let genoSlice := maskedColumns st.genoDf mask1 nIndTotal
  let sampleNames := selectedNames genoColumns mask1
  -- Resample the covariate matrix if need be (399–404).
  let s2 := resampleCovariatesStep c nIndSel st.covM s1.2
  let covM1 := s2.1
  let cov := covM1.getD (fun _ _ => 0)
  -- Generate the noise matrix (413–414).
  let s3 := s2.2.drawMat nEqtls nIndSel
  let noiseM := s3.1
  -- Generate the model beta's (425–433): covariate betas column by column,
  -- then interaction betas column by column.
  let s4 := s3.2.drawMat c.nCovariates nEqtls
  let covBeta : Mat := fun i cc => s4.1 cc i
  let s5 := s4.2.drawMat c.nInteractionCovariates nEqtls
  let interBeta : Mat := fun i cc => s5.1 cc i
  -- Starting vectors (441–448): PCA on the per-sample standardized
  -- expression matrix.
  let exprM : Mat := fun i j =>
    exprEntry c genoSlice cov noiseM interceptBeta genoBeta covBeta interBeta i j
  let pcs := pcaFit c.nStartingVectors nEqtls nIndSel (zscoreM sqrtQ nEqtls exprM)
  -- Checking correlation with real PICs (450–464): guarded corrcoef call;
  -- its `cov_m` subscript raises `TypeError` when the matrix is `None`.
  let hidden : RunFlow (Option (Mat × Mat)) :=
    if 0 < c.nHiddenCovariates then
      match covM1 with
      | none => .exited 1 true
      | some cm =>
        .ok (some (corrcoef bi sqrtQ nIndSel (hiddenCovSlice c cm) (transposeM pcs.2)))
    else .ok none
  match hidden with
  | .exited code d => .exited code d
  | .ok hiddenCorr =>
    -- Random starting vectors (466–467).
    let s6 := s5.2.drawMat c.nStartingVectors nIndSel
    let randomM := s6.1
    -- Random-vector correlation (468–471): unguarded corrcoef call; its
    -- `cov_m` subscript raises `TypeError` when the matrix is `None`.
    match covM1 with
    | none => .exited 1 true
    | some cm =>
      .ok (⟨sampleNames,
        modelEntry c genoSlice cov noiseM,
        betaEntry c interceptBeta genoBeta covBeta interBeta,
        exprM,
        pcs.1, pcIndexNames pcs.1, sampleNames, pcs.2,
        hiddenCorr,
        c.nStartingVectors, randomIndexNames c.nStartingVectors, sampleNames,
        randomM,
        corrcoef bi sqrtQ nIndSel (hiddenCovSlice c cm) (transposeM randomM)⟩,
       ⟨s6.2, st.genoDf, covM1, mask1⟩)

/-- The experiment loop of `main.start`: run `n` experiments, threading the
loop-carried state; an abort inside one experiment aborts the whole run. -/
def runExperiments (c : SimConfig) (nEqtls nIndTotal nIndSel : ℕ)
    (choice : RNG → ℕ → ℕ → (ℕ → Bool) × RNG)
    (pcaFit : ℕ → ℕ → ℕ → Mat → ℕ × Mat)
    (sqrtQ : ℚ → ℚ)
    (bi : ℚ → ℚ → ℚ → ℚ)
    (genoColumns : List String)
    (interceptBeta genoBeta : Vec) :
    ℕ → SimState → RunFlow (List ExpOutput × SimState)
  | 0, st => .ok ([], st)
  | n + 1, st =>
    match experimentStep c nEqtls nIndTotal nIndSel choice pcaFit sqrtQ bi
      genoColumns interceptBeta genoBeta st with
    | .exited code d => .exited code d
    | .ok p =>
      match runExperiments c nEqtls nIndTotal nIndSel choice pcaFit sqrtQ bi
        genoColumns interceptBeta genoBeta n p.2 with
      | .exited code d => .exited code d
      | .ok q => .ok (p.1 :: q.1, q.2)

/-- The input tables of `main.start`: the eQTL table's columns, the alleles
table's `Alleles` column, and the genotype dataframe (index, columns,
entries), plus the average-expression lookup used for real intercept
betas. -/
structure SimInput where
  snpNames : List String
  eqtlAlleleAssessed : ℕ → String
  metaBeta : ℕ → String
  allelesCol : ℕ → String
  genoIndex : List String
  genoColumns : List String
  genoDf : Mat
  avgExpr : Vec

/-- `main.start` of `simulate_expression.py` up to and including the
experiment loop: the input-mismatch check (312–314), intercept betas
(322–329), genotype betas (331–344), individual selection (347–355), the
covariate matrix (357–361), and the experiments (374–502). -/
def simStart (c : SimConfig)
    (choice : RNG → ℕ → ℕ → (ℕ → Bool) × RNG)
    (pcaFit : ℕ → ℕ → ℕ → Mat → ℕ × Mat)
    (sqrtQ : ℚ → ℚ)
    (bi : ℚ → ℚ → ℚ → ℚ)
    (parseFloat : String → ℚ)
    (inp : SimInput) (rng0 : RNG) :
    RunFlow (List ExpOutput × SimState) :=
  let nEqtls := inp.genoIndex.length
  let nIndTotal := inp.genoColumns.length
  match checkEqtlGenotypeMatch inp.snpNames inp.genoIndex with
  | .exited code d => .exited code d
  | .ok _ =>
    let interceptBeta : Vec :=
      if c.useRealInterceptBeta then inp.avgExpr else fun _ => 1
    let gb := genoBetaStep c.useRealGenotypeBeta parseFloat inp.metaBeta
      inp.eqtlAlleleAssessed inp.allelesCol nEqtls rng0
    let nIndSel := c.requestedIndividuals.getD nIndTotal
    match selectIndividuals choice gb.2 nIndSel nIndTotal with
    | .exited code d => .exited code d
    | .ok mr =>
      let cv : Option Mat × RNG :=
        if 0 < c.nCovariates then
          let (cm, r) := mr.2.drawMat nIndSel c.nCovariates
          (some cm, r)
        else (none, mr.2)
      let st0 : SimState := ⟨cv.2, inp.genoDf, cv.1, mr.1⟩
      runExperiments c nEqtls nIndTotal nIndSel choice pcaFit sqrtQ bi
        inp.genoColumns interceptBeta gb.1 c.nExperiments st0

/-! ## `model_cell_fraction_by_pics.py` — cell-fraction post-processing

`main.start` transposes the PIC matrix, keeps the samples present in both
matrices, and per cell type drops the samples with a missing cell-fraction
value before computing the per-PIC Pearson correlations and fitting
`OLS(cf[mask, ct], pics[mask, :])`.  Cell-fraction values are modelled as
`Option ℚ` with `none` for pandas `NaN`; `pics` is total.  We record the
inputs handed to `scipy.stats.pearsonr` and `statsmodels` `OLS`, which are
the external boundary of this step. -/

/-- `samples = [sample for sample in pics_df.index if sample in cf_df.index]`
(after `pics_df = pics_df.T`, its index is the sample axis). -/
def commonSamples (picsSamples cfSamples : List String) : List String :=
  picsSamples.filter (fun s => s ∈ cfSamples)

/-- The inputs of the per-cell-type modelling step: the samples that survive
the `~isna` mask, the argument pair passed to `pearsonr` for each PIC, and
the endog/exog arguments passed to `OLS`. -/
structure CellTypeFit where
  usedSamples : List String
  pearsonArgs : String → List ℚ × List ℚ
  olsEndog : List ℚ
  olsExog : List (List ℚ)

/-- `model_cell_fraction_by_pics.py` lines 129–160 for one cell type:
restrict both matrices to the common samples, mask out missing
cell-fraction values, compute the `pearsonr` argument pairs, and build the
`OLS` arguments (`pics_df.loc[mask, :]` — the PIC columns, nothing else). -/
def modelCellFraction (cf : String → String → Option ℚ) (pics : String → String → ℚ)
    (picsSamples cfSamples picNames : List String) (ct : String) : CellTypeFit :=
  let samples := commonSamples picsSamples cfSamples
  let used := samples.filter (fun s => (cf s ct).isSome)
  { usedSamples := used
  , pearsonArgs := fun pic =>
      (used.map (fun s => (cf s ct).getD 0), used.map (fun s => pics s pic))
  , olsEndog := used.map (fun s => (cf s ct).getD 0)
  , olsExog := used.map (fun s => picNames.map (fun p => pics s p)) }

/-! ## Concrete instantiations used by the witnesses -/

/-- A `np.random.choice` model that never marks an index and does not
advance the generator; used only where a claim does not depend on the
choice semantics. -/
def trivialChoice : RNG → ℕ → ℕ → (ℕ → Bool) × RNG :=
  fun r _ _ => (fun _ => false, r)

/-- A `np.random.choice` model choosing the first `k` indices and leaving
the generator untouched; it returns `k` distinct indices below `n`
whenever `k ≤ n`, as NumPy's `replace=False` sampling does. -/
def firstKChoice : RNG → ℕ → ℕ → (ℕ → Bool) × RNG :=
  fun r _ k => (fun i => decide (i < k), r)

/-- A `PCA.fit` model returning the requested number of zero components;
used only where a claim depends on the component count, not the values. -/
def trivialPca : ℕ → ℕ → ℕ → Mat → ℕ × Mat :=
  fun k _ _ _ => (k, fun _ _ => 0)

/-- A concrete `main.start` input whose eQTL `SNPName` column disagrees
with the genotype matrix's row index. -/
def mismatchedInput : SimInput :=
  { snpNames := ["rs11"]
  , eqtlAlleleAssessed := fun _ => "A"
  , metaBeta := fun _ => "0 (0)"
  , allelesCol := fun _ => "A/G"
  , genoIndex := ["rs22"]
  , genoColumns := ["sample1"]
  , genoDf := fun _ _ => 0
  , avgExpr := fun _ => 0 }

/-- The simulator's default configuration (`argparse` defaults of
`simulate_expression.py`). -/
def simConfigDefault : SimConfig :=
  { useRealInterceptBeta := false
  , useRealGenotypeBeta := false
  , requestedIndividuals := none
  , resampleIndividuals := false
  , nExperiments := 1
  , nKnownCovariates := 2
  , nHiddenCovariates := 3
  , nStartingVectors := 25
  , excludeCovariateInteractions := false
  , resampleCovariates := false }

/-! ## Claims -/

/-- C2 counterexample: with configured `min_iter = 5` and `max_iter = 3`,
the bound passed to the driver is `6`, not the configured `max_iter = 3`. -/
theorem maxIterNotConfiguredValue :
    (buildMain cliArgsMax3Min5).max_iter ≠ cliArgsMax3Min5.max_iter := by
  decide

/-- C2 (amended): the maximum-iteration bound passed to the driver equals
the configured `max_iter` when `max_iter` exceeds `min_iter`; when the
configured `max_iter` is at most `min_iter`, the bound is `min_iter + 1`
instead. -/
theorem maxIterBound (a : CLIArgs) :
    (a.min_iter < a.max_iter → (buildMain a).max_iter = a.max_iter) ∧
    (a.max_iter ≤ a.min_iter → (buildMain a).max_iter = a.min_iter + 1) := by
  refine ⟨fun h => ?_, fun h => ?_⟩ <;>
  · show adjustMaxIter a.min_iter a.max_iter = _
    unfold adjustMaxIter
    split <;> omega

/-- C2 witness: the amended bound evaluated at `min_iter = 2, max_iter = 9`
and at `min_iter = 5, max_iter = 3`. -/
theorem maxIterBoundApplied :
    (buildMain { cliArgsMax3Min5 with min_iter := 2, max_iter := 9 }).max_iter = 9 ∧
    (buildMain cliArgsMax3Min5).max_iter = 5 + 1 :=
  ⟨(maxIterBound { cliArgsMax3Min5 with min_iter := 2, max_iter := 9 }).1 (by decide),
   (maxIterBound cliArgsMax3Min5).2 (by decide)⟩

/-- C3: every option of the configuration surface is retrieved from the
command line and passed into the `Main` constructor: the sentinel,
thresholds, component count, `min_iter`, tolerance and the two flags are
passed through unchanged, and the `max_iter` argument of the constructor is
a function of the retrieved `min_iter` and `max_iter` alone. -/
theorem cliOptionsReachDriver (a : CLIArgs) :
    (buildMain a).genotype_na = a.genotype_na ∧
    (buildMain a).call_rate = a.call_rate ∧
    (buildMain a).hw_pval = a.hardy_weinberg_pvalue ∧
    (buildMain a).maf = a.minor_allele_frequency ∧
    (buildMain a).mgs = a.min_group_size ∧
    (buildMain a).min_dataset_size = a.min_dataset_size ∧
    (buildMain a).n_components = a.n_components ∧
    (buildMain a).min_iter = a.min_iter ∧
    (buildMain a).tol = a.tol ∧
    (buildMain a).force_continue = a.force_continue ∧
    (buildMain a).verbose = a.verbose ∧
    ∀ b : CLIArgs, a.min_iter = b.min_iter → a.max_iter = b.max_iter →
      (buildMain a).max_iter = (buildMain b).max_iter := by
  refine ⟨rfl, rfl, rfl, rfl, rfl, rfl, rfl, rfl, rfl, rfl, rfl, fun b h1 h2 => ?_⟩
  show adjustMaxIter a.min_iter a.max_iter = adjustMaxIter b.min_iter b.max_iter
  rw [h1, h2]

/-- C3 witness: the wiring evaluated at a fixed argument record, with the
`max_iter` determination applied to an identical copy. -/
theorem cliOptionsReachDriverApplied :
    (buildMain cliArgsMax3Min5).genotype_na = cliArgsMax3Min5.genotype_na ∧
    (buildMain cliArgsMax3Min5).max_iter = (buildMain cliArgsMax3Min5).max_iter :=
  ⟨(cliOptionsReachDriver cliArgsMax3Min5).1,
   (cliOptionsReachDriver cliArgsMax3Min5).2.2.2.2.2.2.2.2.2.2.2
     cliArgsMax3Min5 rfl rfl⟩

/-- C1: on an input whose eQTL `SNPName` column differs from the genotype
row index, `main.start` prints the diagnostic and terminates at once —
before any experiment is generated — but through Python's bare `exit()`,
whose exit status is `0`, not a non-zero status. -/
theorem inputMismatchExitStatusZero :
    simStart simConfigDefault trivialChoice trivialPca (fun q => q)
      (fun _ _ _ => 0) (fun _ => 0) mismatchedInput ⟨fun _ => 0, 0⟩ =
      RunFlow.exited 0 true := by
  rfl

/-- C4: the simulated expression of eQTL `i` in sample `j` — the per-eQTL
inner product of the model-matrix row and the beta vector — equals the
ground-truth linear model: intercept beta, plus genotype beta times
genotype, plus the covariate betas times covariate values, plus (exactly
when covariate interactions are not excluded) the interaction betas times
covariate-times-genotype, plus the noise term with coefficient `1`. -/
theorem simulatedExpressionLinearModel (c : SimConfig) (geno cov noise : Mat)
    (interceptBeta genoBeta : Vec) (covBeta interBeta : Mat) (i j : ℕ) :
    exprEntry c geno cov noise interceptBeta genoBeta covBeta interBeta i j =
      interceptBeta i + genoBeta i * geno i j
      + (∑ cc ∈ Finset.range c.nCovariates, covBeta i cc * cov j cc)
      + (if c.excludeCovariateInteractions then 0
         else ∑ cc ∈ Finset.range c.nCovariates, interBeta i cc * (cov j cc * geno i j))
      + noise i j * 1 := by
  have hf0 : modelEntry c geno cov noise i j 0 *
      betaEntry c interceptBeta genoBeta covBeta interBeta i 0 = interceptBeta i := by
    simp [modelEntry, betaEntry]
  have hf1 : modelEntry c geno cov noise i j 1 *
      betaEntry c interceptBeta genoBeta covBeta interBeta i 1 = genoBeta i * geno i j := by
    simp [modelEntry, betaEntry, mul_comm]
  have hcov : ∑ x ∈ Finset.range c.nCovariates,
      modelEntry c geno cov noise i j (2 + x) *
        betaEntry c interceptBeta genoBeta covBeta interBeta i (2 + x)
      = ∑ cc ∈ Finset.range c.nCovariates, covBeta i cc * cov j cc := by
    refine Finset.sum_congr rfl (fun x hx => ?_)
    rw [Finset.mem_range] at hx
    have h0 : ¬(2 + x = 0) := by omega
    have h1 : ¬(2 + x = 1) := by omega
    have h2 : 2 + x < c.nCovariates + 2 := by omega
    have h3 : 2 + x - 2 = x := by omega
    simp [modelEntry, betaEntry, h0, h1, h2, h3, mul_comm]
  have hint : ∑ x ∈ Finset.range c.nInteractionCovariates,
      modelEntry c geno cov noise i j (2 + c.nCovariates + x) *
        betaEntry c interceptBeta genoBeta covBeta interBeta i (2 + c.nCovariates + x)
      = (if c.excludeCovariateInteractions then 0
         else ∑ cc ∈ Finset.range c.nCovariates, interBeta i cc * (cov j cc * geno i j)) := by
    by_cases hE : c.excludeCovariateInteractions
    · simp [SimConfig.nInteractionCovariates, hE]
    · have hI : c.nInteractionCovariates = c.nCovariates := by
        simp [SimConfig.nInteractionCovariates, hE]
      rw [hI, if_neg hE]
      refine Finset.sum_congr rfl (fun x hx => ?_)
      rw [Finset.mem_range] at hx
      have hT : c.nTerms = 2 + c.nCovariates + c.nCovariates + 1 := by
        simp [SimConfig.nTerms, hI]
      have h0 : ¬(2 + c.nCovariates + x = 0) := by omega
      have h1 : ¬(2 + c.nCovariates + x = 1) := by omega
      have h2 : ¬(2 + c.nCovariates + x < c.nCovariates + 2) := by omega
      have h3 : 2 + c.nCovariates + x < c.nTerms - 1 := by omega
      have h4 : 2 + c.nCovariates + x - (c.nCovariates + 2) = x := by omega
      simp only [modelEntry, betaEntry, if_neg h0, if_neg h1, if_neg h2, if_pos h3, h4]
      ring
  have hlast : modelEntry c geno cov noise i j (2 + c.nCovariates + c.nInteractionCovariates) *
      betaEntry c interceptBeta genoBeta covBeta interBeta i
        (2 + c.nCovariates + c.nInteractionCovariates)
      = noise i j * 1 := by
    have hT : c.nTerms = 2 + c.nCovariates + c.nInteractionCovariates + 1 := rfl
    have h0 : ¬(2 + c.nCovariates + c.nInteractionCovariates = 0) := by omega
    have h1 : ¬(2 + c.nCovariates + c.nInteractionCovariates = 1) := by omega
    have h2 : ¬(2 + c.nCovariates + c.nInteractionCovariates < c.nCovariates + 2) := by
      omega
    have h3 : ¬(2 + c.nCovariates + c.nInteractionCovariates < c.nTerms - 1) := by omega
    simp only [modelEntry, betaEntry, if_neg h0, if_neg h1, if_neg h2, if_neg h3]
  have hT : c.nTerms = 2 + c.nCovariates + c.nInteractionCovariates + 1 := rfl
  rw [exprEntry, hT, Finset.sum_range_succ, Finset.sum_range_add,
    Finset.sum_range_add, Finset.sum_range_succ, Finset.sum_range_one,
    hf0, hf1, hcov, hint, hlast]

/-- C5: the correlation-statistic routine is deterministic — two
invocations on identical input matrices return identical coefficient and
p-value matrices — and it leaves the random generator untouched (no
randomness occurs inside this step). -/
theorem corrcoefDeterministic (bi : ℚ → ℚ → ℚ → ℚ) (sqrtQ : ℚ → ℚ) (n : ℕ)
    (m1 m2 m3 m4 : Mat) (rng rng' : RNG) (h1 : m1 = m3) (h2 : m2 = m4) :
    (corrcoefCall bi sqrtQ n m1 m2 rng).1 = (corrcoefCall bi sqrtQ n m3 m4 rng').1 ∧
    (corrcoefCall bi sqrtQ n m1 m2 rng).2 = rng := by
  subst h1
  subst h2
  exact ⟨rfl, rfl⟩

/-- C5 witness: two invocations on the same concrete matrices, from
different generator states, agree, and the first generator state passes
through unchanged. -/
theorem corrcoefDeterministicApplied :
    (corrcoefCall (fun _ _ _ => 0) (fun q => q) 2 (fun _ _ => 1) (fun _ _ => 1)
        ⟨fun _ => 0, 0⟩).1 =
      (corrcoefCall (fun _ _ _ => 0) (fun q => q) 2 (fun _ _ => 1) (fun _ _ => 1)
        ⟨fun _ => 0, 5⟩).1 ∧
    (corrcoefCall (fun _ _ _ => 0) (fun q => q) 2 (fun _ _ => 1) (fun _ _ => 1)
        ⟨fun _ => 0, 0⟩).2 = ⟨fun _ => 0, 0⟩ :=
  corrcoefDeterministic (fun _ _ _ => 0) (fun q => q) 2
    (fun _ _ => 1) (fun _ _ => 1) (fun _ _ => 1) (fun _ _ => 1)
    ⟨fun _ => 0, 0⟩ ⟨fun _ => 0, 5⟩ rfl rfl

/-- C8: with `use_real_genotype_beta` set, each genotype beta is the float
parsed from the first space-separated token of `Meta-Beta (SE)`, times `+1`
when the eQTL table's `AlleleAssessed` equals the allele before the `/` of
the alleles table's `Alleles` entry and `-1` otherwise; with the flag unset
the betas are the fresh normal draws, and the result does not depend on the
`Meta-Beta (SE)` column or the alleles matrix at all. -/
theorem genoBetaSemantics (parseFloat : String → ℚ)
    (metaBeta eqtlAA allelesCol : ℕ → String) (nEqtls : ℕ) (rng : RNG) :
    (∀ i, (genoBetaStep true parseFloat metaBeta eqtlAA allelesCol nEqtls rng).1 i =
        parseFloat (firstField " " (metaBeta i)) *
          (if eqtlAA i = firstField "/" (allelesCol i) then 1 else -1)) ∧
    (∀ i, (genoBetaStep false parseFloat metaBeta eqtlAA allelesCol nEqtls rng).1 i =
        rng.stream (rng.pos + i)) ∧
    (∀ metaBeta2 allelesCol2 : ℕ → String,
      (genoBetaStep false parseFloat metaBeta2 eqtlAA allelesCol2 nEqtls rng).1 =
        (genoBetaStep false parseFloat metaBeta eqtlAA allelesCol nEqtls rng).1) :=
  ⟨fun _ => rfl, fun _ => rfl, fun _ _ => rfl⟩

/-- C9: for each cell type, the samples feeding both the per-PIC Pearson
correlations and the OLS fit are exactly those in the intersection of the
PIC matrix's and the cell-fraction matrix's sample sets that have a
non-missing cell-fraction value, and the OLS design matrix consists of the
PIC columns only — each design row lists exactly the PIC values, with no
intercept column. -/
theorem cellFractionModelInputs (cf : String → String → Option ℚ)
    (pics : String → String → ℚ) (picsSamples cfSamples picNames : List String)
    (ct : String) :
    (∀ s, s ∈ (modelCellFraction cf pics picsSamples cfSamples picNames ct).usedSamples ↔
        (s ∈ picsSamples ∧ s ∈ cfSamples ∧ (cf s ct).isSome)) ∧
    (∀ pic, (modelCellFraction cf pics picsSamples cfSamples picNames ct).pearsonArgs pic =
        ((modelCellFraction cf pics picsSamples cfSamples picNames ct).usedSamples.map
           (fun s => (cf s ct).getD 0),
         (modelCellFraction cf pics picsSamples cfSamples picNames ct).usedSamples.map
           (fun s => pics s pic))) ∧
    ((modelCellFraction cf pics picsSamples cfSamples picNames ct).olsEndog =
      (modelCellFraction cf pics picsSamples cfSamples picNames ct).usedSamples.map
        (fun s => (cf s ct).getD 0)) ∧
    ((modelCellFraction cf pics picsSamples cfSamples picNames ct).olsExog =
      (modelCellFraction cf pics picsSamples cfSamples picNames ct).usedSamples.map
        (fun s => picNames.map (fun p => pics s p))) ∧
    (∀ row ∈ (modelCellFraction cf pics picsSamples cfSamples picNames ct).olsExog,
      row.length = picNames.length) := by
  refine ⟨fun s => ?_, fun _ => rfl, rfl, rfl, fun row hrow => ?_⟩
  · simp only [modelCellFraction, commonSamples, List.mem_filter,
      decide_eq_true_eq, and_assoc]
  · simp only [modelCellFraction] at hrow
    rw [List.mem_map] at hrow
    obtain ⟨s, _, rfl⟩ := hrow
    simp

/-- A cell-fraction matrix with one non-missing value, used by the C9
witness. -/
def cfExample : String → String → Option ℚ :=
  fun s _ => if s = "s2" then some 1 else none

/-- A constant PIC matrix, used by the C9 witness. -/
def picsExample : String → String → ℚ := fun _ _ => 2

/-- C9 witness: the sample-selection characterization evaluated at a
concrete pair of matrices. -/
theorem cellFractionModelInputsApplied :
    "s2" ∈ (modelCellFraction cfExample picsExample ["s1", "s2"] ["s2"] ["PIC1"]
        "Neutrophils").usedSamples ↔
      ("s2" ∈ ["s1", "s2"] ∧ "s2" ∈ (["s2"] : List String) ∧
        (cfExample "s2" "Neutrophils").isSome) :=
  (cellFractionModelInputs cfExample picsExample ["s1", "s2"] ["s2"] ["PIC1"]
    "Neutrophils").1 "s2"

/-- NumPy's documented behaviour of `np.random.choice(n, size=k,
replace=False)`: the returned indices are `k` distinct members of
`range(n)`, so the indicator of the chosen set has exactly `k` set
positions below `n`, whenever `k ≤ n`. -/
def ChoiceDistinct (choice : RNG → ℕ → ℕ → (ℕ → Bool) × RNG) : Prop :=
  ∀ r n k, k ≤ n →
    ((Finset.range n).filter (fun i => (choice r n k).1 i = true)).card = k

/-- `firstKChoice` satisfies the NumPy `replace=False` contract. -/
theorem firstKChoiceDistinct : ChoiceDistinct firstKChoice := by
  intro r n k hk
  have h : ((Finset.range n).filter (fun i => (firstKChoice r n k).1 i = true)) =
      Finset.range k := by
    ext i
    simp only [firstKChoice, Finset.mem_filter, Finset.mem_range, decide_eq_true_eq]
    omega
  rw [h, Finset.card_range]

/-- C10: requesting more individuals than the genotype matrix has columns
makes `main.start` print an error and terminate before any experiment is
generated; requesting `m ≤ total` individuals produces a mask selecting
exactly `m` distinct individuals; and with the option omitted the all-ones
mask keeps every individual. -/
theorem individualSelection (choice : RNG → ℕ → ℕ → (ℕ → Bool) × RNG)
    (hc : ChoiceDistinct choice) (rng : RNG) (nTotal : ℕ) :
    (∀ (m : ℕ) (c : SimConfig) (pcaFit : ℕ → ℕ → ℕ → Mat → ℕ × Mat)
        (sqrtQ : ℚ → ℚ) (bi : ℚ → ℚ → ℚ → ℚ) (parseFloat : String → ℚ)
        (inp : SimInput) (rng0 : RNG),
      inp.genoColumns.length < m →
      inp.snpNames = inp.genoIndex →
      c.requestedIndividuals = some m →
      simStart c choice pcaFit sqrtQ bi parseFloat inp rng0 =
        RunFlow.exited 0 true) ∧
    (∀ m : ℕ, m ≤ nTotal →
      ∃ mask rng2, selectIndividuals choice rng m nTotal = .ok (mask, rng2) ∧
        ((Finset.range nTotal).filter (fun i => mask i = true)).card = m) ∧
    (selectIndividuals choice rng ((none : Option ℕ).getD nTotal) nTotal =
      .ok (fun _ => true, rng)) := by
  refine ⟨?_, ?_, ?_⟩
  · intro m c pcaFit sqrtQ bi parseFloat inp rng0 hm hmatch hreq
    have h1 : checkEqtlGenotypeMatch inp.snpNames inp.genoIndex = .ok () := by
      simp [checkEqtlGenotypeMatch, hmatch]
    have h2 : ∀ r : RNG,
        selectIndividuals choice r (c.requestedIndividuals.getD inp.genoColumns.length)
          inp.genoColumns.length = RunFlow.exited 0 true := by
      intro r
      rw [hreq]
      simp only [Option.getD_some, selectIndividuals]
      rw [if_pos (by omega), if_pos (by omega)]
    simp only [simStart, h1, h2]
  · intro m hm
    by_cases hEq : m = nTotal
    · subst hEq
      refine ⟨fun _ => true, rng, ?_, ?_⟩
      · simp [selectIndividuals]
      · simp
    · refine ⟨fun i => !(choice rng nTotal (nTotal - m)).1 i,
        (choice rng nTotal (nTotal - m)).2, ?_, ?_⟩
      · simp only [selectIndividuals]
        rw [if_pos hEq, if_neg (by omega)]
      · have hcard := hc rng nTotal (nTotal - m) (by omega)
        have hsplit := Finset.filter_card_add_filter_neg_card_eq_card
          (s := Finset.range nTotal)
          (p := fun i => (choice rng nTotal (nTotal - m)).1 i = true)
        have h : ((Finset.range nTotal).filter
            (fun i => (!(choice rng nTotal (nTotal - m)).1 i) = true)) =
            ((Finset.range nTotal).filter
              (fun i => ¬((choice rng nTotal (nTotal - m)).1 i = true))) := by
          apply Finset.filter_congr
          intro i _
          simp
        rw [h]
        rw [Finset.card_range] at hsplit
        omega
  · simp [selectIndividuals]

/-- C10 witness: with the option omitted (`None` requested individuals) and
three available individuals, the selection keeps the all-ones mask and does
not touch the generator. -/
theorem individualSelectionApplied :
    selectIndividuals firstKChoice ⟨fun _ => 0, 0⟩ ((none : Option ℕ).getD 3) 3 =
      RunFlow.ok (fun _ => true, (⟨fun _ => 0, 0⟩ : RNG)) :=
  (individualSelection firstKChoice firstKChoiceDistinct ⟨fun _ => 0, 0⟩ 3).2.2

/-- scikit-learn's documented behaviour of `PCA(n_components=k).fit`: when
`k` is at most both the row and the feature count of the fitted matrix,
`components_` has exactly `k` rows. -/
def PcaComponentCount (pcaFit : ℕ → ℕ → ℕ → Mat → ℕ × Mat) : Prop :=
  ∀ k ns nf m, k ≤ ns → k ≤ nf → (pcaFit k ns nf m).1 = k

/-- `np.random.choice` draws from the same global generator as the normal
draws: it may advance the position but never alters the variate stream nor
rewinds it. -/
def ChoicePreservesStream (choice : RNG → ℕ → ℕ → (ℕ → Bool) × RNG) : Prop :=
  ∀ r n k, (choice r n k).2.stream = r.stream ∧ r.pos ≤ (choice r n k).2.pos

/-- A block draw keeps the variate stream unchanged. -/
theorem RNG.drawMat_snd_stream (r : RNG) (a b : ℕ) :
    (r.drawMat a b).2.stream = r.stream := rfl

/-- A block draw only advances the position. -/
theorem RNG.drawMat_snd_pos (r : RNG) (a b : ℕ) :
    r.pos ≤ (r.drawMat a b).2.pos := Nat.le_add_right _ _

/-- The individuals-resampling step keeps the variate stream and never
rewinds the generator, given a stream-preserving `choice`. -/
theorem resampleIndividualsStepRng (c : SimConfig) (nIndTotal nIndSel : ℕ)
    (choice : RNG → ℕ → ℕ → (ℕ → Bool) × RNG)
    (hch : ChoicePreservesStream choice) (mask : ℕ → Bool) (rng : RNG) :
    (resampleIndividualsStep c nIndTotal nIndSel choice mask rng).2.stream = rng.stream ∧
    rng.pos ≤ (resampleIndividualsStep c nIndTotal nIndSel choice mask rng).2.pos := by
  unfold resampleIndividualsStep
  split
  · exact ⟨(hch rng nIndTotal (nIndTotal - nIndSel)).1,
      (hch rng nIndTotal (nIndTotal - nIndSel)).2⟩
  · exact ⟨rfl, Nat.le_refl _⟩

/-- The covariate-resampling step keeps the variate stream and never
rewinds the generator. -/
theorem resampleCovariatesStepRng (c : SimConfig) (nIndSel : ℕ) (covM : Option Mat)
    (rng : RNG) :
    (resampleCovariatesStep c nIndSel covM rng).2.stream = rng.stream ∧
    rng.pos ≤ (resampleCovariatesStep c nIndSel covM rng).2.pos := by
  unfold resampleCovariatesStep
  split
  · exact ⟨rfl, Nat.le_add_right _ _⟩
  · exact ⟨rfl, Nat.le_refl _⟩

/-- Every experiment that the loop body completes (returns without
aborting) produces exactly `n_starting_vectors` data-derived starting
vectors — the leading principal components, labelled `PC1…`, of the
per-sample standardized expression matrix, one column per selected
sample — and exactly `n_starting_vectors` random starting vectors,
labelled `Random1…`, with the same sample columns and entries taken from a
fresh block of the normal-variate stream. -/
theorem startingVectorsGenerated (c : SimConfig) (nEqtls nIndTotal nIndSel : ℕ)
    (choice : RNG → ℕ → ℕ → (ℕ → Bool) × RNG)
    (pcaFit : ℕ → ℕ → ℕ → Mat → ℕ × Mat) (sqrtQ : ℚ → ℚ) (bi : ℚ → ℚ → ℚ → ℚ)
    (genoColumns : List String) (interceptBeta genoBeta : Vec) (st : SimState)
    (out : ExpOutput) (st1 : SimState)
    (hpca : PcaComponentCount pcaFit) (hch : ChoicePreservesStream choice)
    (h1 : c.nStartingVectors ≤ nEqtls) (h2 : c.nStartingVectors ≤ nIndSel)
    (hrun : experimentStep c nEqtls nIndTotal nIndSel choice pcaFit sqrtQ bi
      genoColumns interceptBeta genoBeta st = RunFlow.ok (out, st1)) :
    (out.pcsRows = c.nStartingVectors) ∧
    (out.pcsIndex = pcIndexNames c.nStartingVectors) ∧
    (out.pcsM = (pcaFit c.nStartingVectors nEqtls nIndSel
      (zscoreM sqrtQ nEqtls out.exprM)).2) ∧
    (out.pcsColumns = out.sampleNames) ∧
    (out.sampleNames = selectedNames genoColumns st1.mask) ∧
    (out.randomRows = c.nStartingVectors) ∧
    (out.randomIndex = randomIndexNames c.nStartingVectors) ∧
    (out.randomColumns = out.sampleNames) ∧
    (∃ p, st.rng.pos ≤ p ∧ ∀ i j,
      out.randomM i j = st.rng.stream (p + (i * nIndSel + j))) := by
  have hr1 := resampleIndividualsStepRng c nIndTotal nIndSel choice hch st.mask st.rng
  have hr2 := resampleCovariatesStepRng c nIndSel st.covM
    (resampleIndividualsStep c nIndTotal nIndSel choice st.mask st.rng).2
  rcases hcv : (resampleCovariatesStep c nIndSel st.covM
      (resampleIndividualsStep c nIndTotal nIndSel choice st.mask st.rng).2).1
    with _ | cm
  · by_cases hhc : 0 < c.nHiddenCovariates
    · simp only [experimentStep, hcv, if_pos hhc] at hrun
      exact RunFlow.noConfusion hrun
    · simp only [experimentStep, hcv, if_neg hhc] at hrun
      exact RunFlow.noConfusion hrun
  · by_cases hhc : 0 < c.nHiddenCovariates
    · simp only [experimentStep, hcv, if_pos hhc] at hrun
      rw [RunFlow.ok.injEq, Prod.mk.injEq] at hrun
      obtain ⟨hout, hst⟩ := hrun
      subst hout
      subst hst
      refine ⟨hpca _ _ _ _ h1 h2, congrArg pcIndexNames (hpca _ _ _ _ h1 h2),
        rfl, rfl, rfl, rfl, rfl, rfl, ?_⟩
      refine ⟨(((((resampleCovariatesStep c nIndSel st.covM
          (resampleIndividualsStep c nIndTotal nIndSel choice st.mask
            st.rng).2).2.drawMat nEqtls nIndSel).2.drawMat c.nCovariates
          nEqtls).2.drawMat c.nInteractionCovariates nEqtls).2).pos, ?_, ?_⟩
      · exact le_trans hr1.2 (le_trans hr2.2 (le_trans (RNG.drawMat_snd_pos _ _ _)
          (le_trans (RNG.drawMat_snd_pos _ _ _) (RNG.drawMat_snd_pos _ _ _))))
      · intro i j
        have hstream : ((((resampleCovariatesStep c nIndSel st.covM
            (resampleIndividualsStep c nIndTotal nIndSel choice st.mask
              st.rng).2).2.drawMat nEqtls nIndSel).2.drawMat c.nCovariates
            nEqtls).2.drawMat c.nInteractionCovariates nEqtls).2.stream =
            st.rng.stream := by
          rw [RNG.drawMat_snd_stream, RNG.drawMat_snd_stream,
            RNG.drawMat_snd_stream, hr2.1, hr1.1]
        rw [← hstream]
        rfl
    · simp only [experimentStep, hcv, if_neg hhc] at hrun
      rw [RunFlow.ok.injEq, Prod.mk.injEq] at hrun
      obtain ⟨hout, hst⟩ := hrun
      subst hout
      subst hst
      refine ⟨hpca _ _ _ _ h1 h2, congrArg pcIndexNames (hpca _ _ _ _ h1 h2),
        rfl, rfl, rfl, rfl, rfl, rfl, ?_⟩
      refine ⟨(((((resampleCovariatesStep c nIndSel st.covM
          (resampleIndividualsStep c nIndTotal nIndSel choice st.mask
            st.rng).2).2.drawMat nEqtls nIndSel).2.drawMat c.nCovariates
          nEqtls).2.drawMat c.nInteractionCovariates nEqtls).2).pos, ?_, ?_⟩
      · exact le_trans hr1.2 (le_trans hr2.2 (le_trans (RNG.drawMat_snd_pos _ _ _)
          (le_trans (RNG.drawMat_snd_pos _ _ _) (RNG.drawMat_snd_pos _ _ _))))
      · intro i j
        have hstream : ((((resampleCovariatesStep c nIndSel st.covM
            (resampleIndividualsStep c nIndTotal nIndSel choice st.mask
              st.rng).2).2.drawMat nEqtls nIndSel).2.drawMat c.nCovariates
            nEqtls).2.drawMat c.nInteractionCovariates nEqtls).2.stream =
            st.rng.stream := by
          rw [RNG.drawMat_snd_stream, RNG.drawMat_snd_stream,
            RNG.drawMat_snd_stream, hr2.1, hr1.1]
        rw [← hstream]
        rfl

/-- C7: across the experiment loop the loaded genotype dataframe is never
mutated — any completed prefix of the loop returns it unchanged in the
loop-carried state, and each completed experiment's model matrix takes its
genotype plane from a slice of that unchanged dataframe — and with
`resample_covariates` unset every completed prefix carries the covariate
matrix held before the loop, unmodified. -/
theorem experimentLoopFrame (c : SimConfig) (nEqtls nIndTotal nIndSel : ℕ)
    (choice : RNG → ℕ → ℕ → (ℕ → Bool) × RNG)
    (pcaFit : ℕ → ℕ → ℕ → Mat → ℕ × Mat) (sqrtQ : ℚ → ℚ) (bi : ℚ → ℚ → ℚ → ℚ)
    (genoColumns : List String) (interceptBeta genoBeta : Vec) :
    (∀ (st : SimState) (out : ExpOutput) (st1 : SimState),
      experimentStep c nEqtls nIndTotal nIndSel choice pcaFit sqrtQ bi
        genoColumns interceptBeta genoBeta st = RunFlow.ok (out, st1) →
      st1.genoDf = st.genoDf ∧
      (c.resampleCovariates = false → st1.covM = st.covM) ∧
      ∀ i j, out.modelM i j 1 = maskedColumns st.genoDf st1.mask nIndTotal i j) ∧
    (∀ (n : ℕ) (st : SimState) (outs : List ExpOutput) (st2 : SimState),
      runExperiments c nEqtls nIndTotal nIndSel choice pcaFit sqrtQ bi
        genoColumns interceptBeta genoBeta n st = RunFlow.ok (outs, st2) →
      st2.genoDf = st.genoDf ∧
      (c.resampleCovariates = false → st2.covM = st.covM)) := by
  have hstep : ∀ (st : SimState) (out : ExpOutput) (st1 : SimState),
      experimentStep c nEqtls nIndTotal nIndSel choice pcaFit sqrtQ bi
        genoColumns interceptBeta genoBeta st = RunFlow.ok (out, st1) →
      st1.genoDf = st.genoDf ∧
      (c.resampleCovariates = false → st1.covM = st.covM) ∧
      ∀ i j, out.modelM i j 1 = maskedColumns st.genoDf st1.mask nIndTotal i j := by
    intro st out st1 hrun
    rcases hcv : (resampleCovariatesStep c nIndSel st.covM
        (resampleIndividualsStep c nIndTotal nIndSel choice st.mask st.rng).2).1
      with _ | cm
    · by_cases hhc : 0 < c.nHiddenCovariates
      · simp only [experimentStep, hcv, if_pos hhc] at hrun
        exact RunFlow.noConfusion hrun
      · simp only [experimentStep, hcv, if_neg hhc] at hrun
        exact RunFlow.noConfusion hrun
    · have hkeep : c.resampleCovariates = false → some cm = st.covM := by
        intro h
        rw [← hcv]
        simp [resampleCovariatesStep, h]
      by_cases hhc : 0 < c.nHiddenCovariates
      · simp only [experimentStep, hcv, if_pos hhc] at hrun
        rw [RunFlow.ok.injEq, Prod.mk.injEq] at hrun
        obtain ⟨hout, hst⟩ := hrun
        subst hout
        subst hst
        refine ⟨rfl, fun h => hkeep h, fun i j => ?_⟩
        simp [modelEntry]
      · simp only [experimentStep, hcv, if_neg hhc] at hrun
        rw [RunFlow.ok.injEq, Prod.mk.injEq] at hrun
        obtain ⟨hout, hst⟩ := hrun
        subst hout
        subst hst
        refine ⟨rfl, fun h => hkeep h, fun i j => ?_⟩
        simp [modelEntry]
  refine ⟨hstep, ?_⟩
  intro n
  induction n with
  | zero =>
    intro st outs st2 hrun
    rw [runExperiments, RunFlow.ok.injEq, Prod.mk.injEq] at hrun
    obtain ⟨_, hst⟩ := hrun
    subst hst
    exact ⟨rfl, fun _ => rfl⟩
  | succ n ih =>
    intro st outs st2 hrun
    rw [runExperiments] at hrun
    rcases hs : experimentStep c nEqtls nIndTotal nIndSel choice pcaFit sqrtQ bi
        genoColumns interceptBeta genoBeta st with ⟨code, d⟩ | p
    · simp only [hs] at hrun
      exact RunFlow.noConfusion hrun
    · simp only [hs] at hrun
      rcases hr : runExperiments c nEqtls nIndTotal nIndSel choice pcaFit sqrtQ
          bi genoColumns interceptBeta genoBeta n p.2 with ⟨code, d⟩ | q
      · simp only [hr] at hrun
        exact RunFlow.noConfusion hrun
      · simp only [hr] at hrun
        rw [RunFlow.ok.injEq, Prod.mk.injEq] at hrun
        obtain ⟨_, hst⟩ := hrun
        subst hst
        have h1 := hstep st p.1 p.2 hs
        have h2 := ih p.2 q.1 q.2 hr
        exact ⟨h2.1.trans h1.1, fun h => (h2.2 h).trans (h1.2.1 h)⟩

/-- `trivialPca` satisfies the scikit-learn component-count contract. -/
theorem trivialPcaCount : PcaComponentCount trivialPca :=
  fun _ _ _ _ _ _ => rfl

/-- `trivialChoice` preserves the variate stream and the position. -/
theorem trivialChoiceStream : ChoicePreservesStream trivialChoice :=
  fun _ _ _ => ⟨rfl, Nat.le_refl _⟩

/-- A concrete loop state holding a covariate matrix, used by the
witnesses. -/
def simStateCov : SimState :=
  ⟨⟨fun _ => 0, 0⟩, fun _ _ => 3, some (fun _ _ => 0), fun _ => true⟩

/-- A sentinel state, visibly different from `simStateCov`, returned by the
projections below when a run aborted. -/
def simStateSentinel : SimState :=
  ⟨⟨fun _ => 0, 0⟩, fun _ _ => 99, none, fun _ => false⟩

/-- The PC row count of a completed loop iteration (`0` on abort). -/
def stepPcsRows (r : RunFlow (ExpOutput × SimState)) : ℕ :=
  match r with
  | .exited _ _ => 0
  | .ok p => p.1.pcsRows

/-- The random-vector row count of a completed loop iteration (`0` on
abort). -/
def stepRandomRows (r : RunFlow (ExpOutput × SimState)) : ℕ :=
  match r with
  | .exited _ _ => 0
  | .ok p => p.1.randomRows

/-- The final loop state of a completed run (the sentinel on abort). -/
def loopFinalState (r : RunFlow (List ExpOutput × SimState)) (d : SimState) :
    SimState :=
  match r with
  | .exited _ _ => d
  | .ok p => p.2

/-- Applied instance: with 25 eQTLs, 25 selected individuals, the default
configuration (25 starting vectors, covariates present) one completed
experiment yields 25 expression PCs and 25 random starting vectors. -/
theorem startingVectorsGeneratedApplied :
    (stepPcsRows (experimentStep simConfigDefault 25 25 25 trivialChoice
        trivialPca (fun q => q) (fun _ _ _ => 0) [] (fun _ => 1) (fun _ => 0)
        simStateCov) = simConfigDefault.nStartingVectors) ∧
    (stepRandomRows (experimentStep simConfigDefault 25 25 25 trivialChoice
        trivialPca (fun q => q) (fun _ _ _ => 0) [] (fun _ => 1) (fun _ => 0)
        simStateCov) = simConfigDefault.nStartingVectors) := by
  have h := startingVectorsGenerated simConfigDefault 25 25 25 trivialChoice
    trivialPca (fun q => q) (fun _ _ _ => 0) [] (fun _ => 1) (fun _ => 0)
    simStateCov _ _ trivialPcaCount trivialChoiceStream (by decide) (by decide)
    rfl
  exact ⟨h.1, h.2.2.2.2.2.1⟩

/-- C7 witness: two completed experiments of the default configuration
leave the genotype dataframe and the covariate matrix of the loop state
unchanged. -/
theorem experimentLoopFrameApplied :
    ((loopFinalState (runExperiments simConfigDefault 1 1 1 trivialChoice
        trivialPca (fun q => q) (fun _ _ _ => 0) ["sample1"] (fun _ => 1)
        (fun _ => 0) 2 simStateCov) simStateSentinel).genoDf =
      simStateCov.genoDf) ∧
    ((loopFinalState (runExperiments simConfigDefault 1 1 1 trivialChoice
        trivialPca (fun q => q) (fun _ _ _ => 0) ["sample1"] (fun _ => 1)
        (fun _ => 0) 2 simStateCov) simStateSentinel).covM =
      simStateCov.covM) := by
  have h := (experimentLoopFrame simConfigDefault 1 1 1 trivialChoice trivialPca
    (fun q => q) (fun _ _ _ => 0) ["sample1"] (fun _ => 1) (fun _ => 0)).2
    2 simStateCov _ _ rfl
  exact ⟨h.1, h.2 rfl⟩

/-- The documented `-kc 0 -hc 0` invocation of the simulator: no known and
no hidden covariates, so the covariate matrix is never created. -/
def simConfigNoCov : SimConfig :=
  { simConfigDefault with
    nKnownCovariates := 0
    nHiddenCovariates := 0
    excludeCovariateInteractions := true }

/-- A one-eQTL input whose eQTL `SNPName` column agrees with the genotype
row index (so the run passes the alignment check). -/
def matchedInput : SimInput :=
  { snpNames := ["rs11"]
  , eqtlAlleleAssessed := fun _ => "A"
  , metaBeta := fun _ => "0 (0)"
  , allelesCol := fun _ => "A/G"
  , genoIndex := ["rs11"]
  , genoColumns := ["sample1"]
  , genoDf := fun _ _ => 1
  , avgExpr := fun _ => 0 }

/-- C6: under the script's own documented `-kc 0 -hc 0` invocation the run
aborts inside the first experiment — the unguarded random-vector
correlation step subscripts the absent covariate matrix, an uncaught
`TypeError` (traceback, exit status 1) — so the starting vectors are never
indexed by the selected sample names and no experiment completes. -/
theorem noCovariatesRunAborts :
    simStart simConfigNoCov trivialChoice trivialPca (fun q => q)
      (fun _ _ _ => 0) (fun _ => 0) matchedInput ⟨fun _ => 0, 0⟩ =
      RunFlow.exited 1 true := by
  rfl

end DeconOptimizer
